import Mathlib

/-
Verification development for the synthetic maintenance-data generator
(`maintenance_app/synthetic_maintenance_data.py`).

Modelling conventions:
* Python floats are modelled as real numbers (`ℝ`).
* Every random draw of the program is an explicit input.  A call
  `np.random.normal(mu, sigma)` is modelled as `mu + sigma * z` with `z` the
  realized standard-normal draw, `random.uniform(a, b)` as `a + (b - a) * u`
  with `u` the realized draw of `Uniform(0,1)`, and `random.random()` as a
  plain value `r` (with `0 ≤ r < 1` assumed as a hypothesis where needed).
  All draws for one simulated day are collected in `DayDraws`; the draws made
  when a machine is created are collected in `InitDraws`; an `Oracle` supplies
  draws for the whole run, keyed by cycle, machine id and day-in-cycle.
* `round(x, n)` (Python) is modelled by `pyround x n` using Mathlib's
  integer rounding.  Python rounds exact halves to even while `round` rounds
  them up; the two agree everywhere else, and no theorem below depends on the
  behaviour at an exact half.
* The Python attribute `intermittent_fault_active` is created dynamically via
  `hasattr`; before creation, `hasattr` is false, which is modelled by a
  `Bool` field initialized to `false`.
-/

namespace MaintenanceSim

/-- Python's `round(x, n)`: round to `n` decimal digits. -/
noncomputable def pyround (x : ℝ) (n : ℕ) : ℝ :=
  ((round (x * 10 ^ n) : ℤ) : ℝ) / 10 ^ n

/-- Hidden per-machine state, mirroring the attributes set in
`MachineBehavior.__init__` and mutated by the update methods. -/
structure Machine where
  machine_id : ℕ
  age : ℝ
  quality : ℝ
  wear_resistance : ℝ
  bearing_wear : ℝ
  motor_degradation : ℝ
  thermal_stress : ℝ
  lubrication_quality : ℝ
  base_temp : ℝ
  base_vib : ℝ
  base_rpm : ℝ
  cycles_since_service : ℕ
  total_operating_hours : ℕ
  stress_accumulation : ℝ
  maintenance_quality : ℝ
  previous_failures : ℕ
  last_maintenance_effectiveness : ℝ
  intermittent_fault_active : Bool

/-- Realized random draws of `MachineBehavior.__init__` (uniform draws,
reparametrized over `[0,1]`). -/
structure InitDraws where
  uAge : ℝ
  uQuality : ℝ
  uWear : ℝ
  uBaseTemp : ℝ
  uBaseVib : ℝ
  uBaseRpm : ℝ
  uMaint : ℝ

/-- Realized random draws used during one simulated machine-day. -/
structure DayDraws where
  zBase : ℝ
  uMonthSurge : ℝ
  uMonthDip : ℝ
  rAnom1 : ℝ
  uAnomSurge : ℝ
  rAnom2 : ℝ
  uAnomDip : ℝ
  zRpm : ℝ
  rFaultVib : ℝ
  uFaultVib : ℝ
  rFaultTemp : ℝ
  uFaultTemp : ℝ
  rFaultRpm : ℝ
  uFaultRpm : ℝ
  zTempNoise : ℝ
  zVibNoise : ℝ
  zRpmNoise : ℝ
  rGlitchTemp : ℝ
  uGlitchTemp : ℝ
  rGlitchVib : ℝ
  uGlitchVib : ℝ
  rFaultActivate : ℝ
  rRandomFail : ℝ
  rFail : ℝ

/-- The clamped sensor dictionary returned by `calculate_sensor_readings`. -/
structure Sensors where
  temperature : ℝ
  vibration : ℝ
  rpm : ℝ
  load : ℝ

/-- One output row appended to `rows` by the main loop. -/
structure Record where
  machine_id : ℕ
  cycle : ℕ
  day : ℕ
  day_in_cycle : ℕ
  temperature : ℝ
  vibration : ℝ
  rpm : ℝ
  load : ℝ
  service_flag : ℕ
  failure_event : ℕ

/-- `MachineBehavior.__init__(machine_id)` with its seven uniform draws
made explicit. -/
noncomputable def mkMachine (machine_id : ℕ) (d : InitDraws) : Machine where
  machine_id := machine_id
  age := 0.1 + 7.9 * d.uAge
  quality := 0.7 + 0.3 * d.uQuality
  wear_resistance := 0.5 + 1.0 * d.uWear
  bearing_wear := 0.0
  motor_degradation := 0.0
  thermal_stress := 0.0
  lubrication_quality := 1.0
  base_temp := 58 + 10 * d.uBaseTemp
  base_vib := 0.04 + 0.08 * d.uBaseVib
  base_rpm := 1420 + 60 * d.uBaseRpm
  cycles_since_service := 0
  total_operating_hours := 0
  stress_accumulation := 0.0
  maintenance_quality := 0.7 + 0.3 * d.uMaint
  previous_failures := 0
  last_maintenance_effectiveness := 1.0
  intermittent_fault_active := false

/-- The seasonal ambient temperature term of `calculate_sensor_readings`:
`3 * sin(2 * pi * (d % 365) / 365)` for the day index `d` it is given. -/
noncomputable def seasonal_temp_effect (d : ℕ) : ℝ :=
  3 * Real.sin (2 * Real.pi * ((d % 365 : ℕ) : ℝ) / 365)

/-- `MachineBehavior.generate_load_pattern(day, cycle_day)`.  The method reads
no machine state; `cycle_day` is part of the call contract but unused. -/
noncomputable def generate_load_pattern (day : ℕ) (cycle_day : ℕ) (dr : DayDraws) : ℝ :=
  let day_of_week := day % 7
  let day_of_year := day % 365
  let seasonal_factor : ℝ := 1.0 + 0.1 * Real.sin (2 * Real.pi * (day_of_year : ℝ) / 365)
  let base_load : ℝ :=
    if day_of_week = 5 ∨ day_of_week = 6 then 50 + 5 * dr.zBase
    else 68 + 8 * dr.zBase
  let base_load :=
    if day % 30 < 5 then base_load + (10 + 10 * dr.uMonthSurge)
    else if day % 30 > 25 then base_load - (5 + 10 * dr.uMonthDip)
    else base_load
  let base_load := base_load * seasonal_factor
  let base_load :=
    if dr.rAnom1 < 0.1 then base_load + (15 + 15 * dr.uAnomSurge)
    else if dr.rAnom2 < 0.08 then base_load - (10 + 15 * dr.uAnomDip)
    else base_load
  max 35 (min 98 base_load)

/-- `MachineBehavior.calculate_sensor_readings(day_in_cycle, current_load)`. -/
noncomputable def calculate_sensor_readings (m : Machine) (day_in_cycle : ℕ)
    (current_load : ℝ) (dr : DayDraws) : Sensors :=
  let load_factor := current_load / 100.0
  let temp_load_effect := load_factor * 8
  let temp_load_effect :=
    if load_factor > 0.75 then temp_load_effect + (load_factor - 0.75) * 15
    else temp_load_effect
  let temperature := m.base_temp + temp_load_effect +
    m.bearing_wear * 3 + (1 - m.lubrication_quality) * 8 +
    seasonal_temp_effect day_in_cycle
  let vibration := m.base_vib + load_factor * 0.05 +
    m.bearing_wear * 0.15 + m.motor_degradation * 0.1
  let rpm_stability := 2 + m.motor_degradation * 5 + m.bearing_wear * 4
  let rpm := m.base_rpm + rpm_stability * dr.zRpm
  let rpm :=
    if current_load > 80 ∧ (m.motor_degradation > 0.3 ∨ m.bearing_wear > 0.4)
    then rpm - (current_load - 80) * 0.4 else rpm
  let vibration :=
    if m.intermittent_fault_active ∧ dr.rFaultVib < 0.6
    then vibration * (1.1 + 0.7 * dr.uFaultVib) else vibration
  let temperature :=
    if m.intermittent_fault_active ∧ dr.rFaultTemp < 0.4
    then temperature + (1 + 5 * dr.uFaultTemp) else temperature
  let rpm :=
    if m.intermittent_fault_active ∧ dr.rFaultRpm < 0.3
    then rpm + (-10 + 20 * dr.uFaultRpm) else rpm
  let temperature := temperature + 0.7 * dr.zTempNoise
  let vibration := vibration + 0.012 * dr.zVibNoise
  let rpm := rpm + 1.5 * dr.zRpmNoise
  let temperature :=
    if dr.rGlitchTemp < 0.008 then temperature + (3 + 7 * dr.uGlitchTemp)
    else temperature
  let vibration :=
    if dr.rGlitchVib < 0.006 then vibration + (0.05 + 0.1 * dr.uGlitchVib)
    else vibration
  { temperature := max 40 (min 95 (pyround temperature 2))
    vibration := max 0.02 (min 0.5 (pyround vibration 4))
    rpm := max 1380 (pyround rpm 1)
    load := pyround current_load 1 }

/-- `MachineBehavior.update_degradation(sensor_readings, day_in_cycle)`.
The `day_in_cycle` argument is part of the contract but unused in the body. -/
noncomputable def update_degradation (m : Machine) (s : Sensors)
    (day_in_cycle : ℕ) : Machine :=
  let age_factor := min 2.0 (1.0 + m.age / 10)
  let bearing_wear_rate := (s.vibration * 0.5 + s.load / 100 * 0.1) * (1 / m.wear_resistance)
  let rpm_variation := |s.rpm - m.base_rpm| / m.base_rpm
  let thermal_cycles := max 0 ((s.temperature - 65) / 20)
  let lubrication_degradation : ℝ := if s.temperature > 75 then 0.998 else 0.9995
  let daily_stress := s.load / 100 * 0.1 + s.vibration * 0.5 + max 0 (s.temperature - 65) / 50
  { m with
    bearing_wear := min 1.0 (m.bearing_wear + bearing_wear_rate * 0.001 * age_factor)
    motor_degradation := min 1.0 (m.motor_degradation + (rpm_variation + thermal_cycles) * 0.0005)
    lubrication_quality := max 0.1 (m.lubrication_quality * lubrication_degradation)
    stress_accumulation := m.stress_accumulation + daily_stress
    total_operating_hours := m.total_operating_hours + 24 }

/-- `MachineBehavior.check_failure_risk(sensor_readings, day_in_cycle)`.
Returns the risk value together with the (possibly fault-activated) machine.
The `np.prod` over `[1 - r for r in risks]` is written as the expanded
six-factor product. -/
noncomputable def check_failure_risk (m : Machine) (s : Sensors)
    (day_in_cycle : ℕ) (dr : DayDraws) : ℝ × Machine :=
  let age_risk_factor := min 2.0 (1.0 + m.age / 15)
  let bearing_risk : ℝ :=
    if s.vibration > 0.18 ∧ m.bearing_wear > 0.5 then 0.6
    else if s.vibration > 0.25 then 0.8
    else if m.bearing_wear > 0.8 then 0.7
    else 0
  let motor_risk : ℝ :=
    if s.temperature > 78 ∧ s.rpm > m.base_rpm + 20 then 0.5
    else if s.temperature > 82 then 0.7
    else if m.motor_degradation > 0.6 ∧ s.temperature > 70 then 0.4
    else 0
  let lubrication_risk : ℝ :=
    if m.lubrication_quality < 0.3 ∧ s.temperature > 70 then 0.5
    else if m.lubrication_quality < 0.1 then 0.8
    else 0
  let stress_risk : ℝ :=
    if m.stress_accumulation > 30 ∧ day_in_cycle > 100
    then min 0.6 (m.stress_accumulation / 60) else 0
  let degradation_score := m.bearing_wear + m.motor_degradation + (1 - m.lubrication_quality)
  let combined_risk : ℝ :=
    if degradation_score > 1.2 ∧ s.load > 70 then min 0.9 (degradation_score / 2.0) else 0
  let age_risk : ℝ := if m.age > 5 then min 0.3 ((m.age - 5) * 0.06) else 0
  let failure_risk := 1 - ((1 - bearing_risk) * (1 - motor_risk) * (1 - lubrication_risk) *
    (1 - stress_risk) * (1 - combined_risk) * (1 - age_risk))
  let failure_risk := failure_risk * age_risk_factor
  let fault_active :=
    if failure_risk > 0.4 ∧ ¬m.intermittent_fault_active then
      (if dr.rFaultActivate < 0.3 then true else m.intermittent_fault_active)
    else m.intermittent_fault_active
  let failure_risk :=
    if s.temperature > 85 ∨ s.vibration > 0.35 ∨
       m.bearing_wear > 0.95 ∨ m.lubrication_quality < 0.05
    then 1.0 else failure_risk
  let failure_risk := if dr.rRandomFail < 0.0002 then 1.0 else failure_risk
  (min 1.0 failure_risk, { m with intermittent_fault_active := fault_active })

/-- `MachineBehavior.apply_maintenance()`; `u` is the realized
`Uniform(0,1)` draw behind `random.uniform(0.8, 1.0)`. -/
noncomputable def apply_maintenance (m : Machine) (u : ℝ) : Machine :=
  let effectiveness := m.maintenance_quality * (0.8 + 0.2 * u)
  { m with
    last_maintenance_effectiveness := effectiveness
    bearing_wear := m.bearing_wear * (0.2 + 0.5 * (1 - effectiveness))
    motor_degradation := m.motor_degradation * (0.3 + 0.5 * (1 - effectiveness))
    lubrication_quality := min 1.0 (m.lubrication_quality + 0.6 * effectiveness)
    stress_accumulation := m.stress_accumulation * (0.1 + 0.3 * (1 - effectiveness))
    intermittent_fault_active := false }

/-- Supplies every realized random draw of a run: creation draws per machine
id, the maintenance `Uniform(0,1)` draw per (cycle, machine id), and the
daily draws per (cycle, machine id, day-in-cycle). -/
structure Oracle where
  init : ℕ → InitDraws
  maint : ℕ → ℕ → ℝ
  day : ℕ → ℕ → ℕ → DayDraws

/-- Per-(machine, cycle) loop state of the main loop: the machine object plus
`failure_occurred`, `consecutive_high_risk_days` and `intermittent_fault_days`. -/
structure DayState where
  machine : Machine
  failure_occurred : Bool
  consecutive_high_risk_days : ℕ
  intermittent_fault_days : ℕ

/-- The failure-determination logic of the main loop: no failure is recorded
once `failure_occurred` is set; otherwise the streak multipliers scale the
risk and failure fires deterministically above 0.85 or by the Bernoulli
draw `rFail < effective_risk * 0.1`. -/
noncomputable def failure_decision (failure_occurred : Bool) (failure_risk : ℝ)
    (chrd ifd : ℕ) (rFail : ℝ) : Bool :=
  if failure_occurred then false
  else
    let probability_multiplier := 1.0 + (chrd : ℝ) * 0.2
    let probability_multiplier :=
      if ifd > 5 then probability_multiplier * 1.5 else probability_multiplier
    let effective_risk := failure_risk * probability_multiplier
    if effective_risk > 0.85 then true
    else if rFail < effective_risk * 0.1 then true
    else false

/-- The body of the inner `for day_in_cycle in range(1, DAYS_PER_CYCLE + 1)`
loop of the main loop: one simulated machine-day.  `D` is `DAYS_PER_CYCLE`. -/
noncomputable def runDay (o : Oracle) (D cycle day_in_cycle : ℕ)
    (s : DayState) : DayState × Record :=
  let m0 := s.machine
  let global_day := (cycle - 1) * D + day_in_cycle
  let dr := o.day cycle m0.machine_id day_in_cycle
  let current_load := generate_load_pattern global_day day_in_cycle dr
  let sensors := calculate_sensor_readings m0 day_in_cycle current_load dr
  let m1 := update_degradation m0 sensors day_in_cycle
  let failure_risk := (check_failure_risk m1 sensors day_in_cycle dr).1
  let m2 := (check_failure_risk m1 sensors day_in_cycle dr).2
  let chrd := if failure_risk > 0.6 then s.consecutive_high_risk_days + 1 else 0
  let ifd := if m2.intermittent_fault_active then s.intermittent_fault_days + 1 else 0
  let fe := failure_decision s.failure_occurred failure_risk chrd ifd dr.rFail
  let m3 := if fe then { m2 with previous_failures := m2.previous_failures + 1 } else m2
  let service_flag := if day_in_cycle = 1 ∧ cycle > 1 then 1 else 0
  ( { machine := m3
      failure_occurred := s.failure_occurred || fe
      consecutive_high_risk_days := chrd
      intermittent_fault_days := ifd },
    { machine_id := m3.machine_id
      cycle := cycle
      day := global_day
      day_in_cycle := day_in_cycle
      temperature := sensors.temperature
      vibration := sensors.vibration
      rpm := sensors.rpm
      load := sensors.load
      service_flag := service_flag
      failure_event := if fe then 1 else 0 } )

/-- Runs `runDay` over a list of day indices, threading the state and
collecting the emitted records in order. -/
noncomputable def runDays (o : Oracle) (D cycle : ℕ) :
    List ℕ → DayState → DayState × List Record
  | [], s => (s, [])
  | d :: ds, s =>
    let step := runDay o D cycle d s
    let rest := runDays o D cycle ds step.1
    (rest.1, step.2 :: rest.2)

/-- One (cycle, machine) block of the main loop: maintenance at the start of
every cycle after the first, the `cycles_since_service` bump, fresh
cycle-level failure tracking, then the day loop over `1, ..., D`. -/
noncomputable def runCycleMachine (o : Oracle) (D cycle : ℕ) (m : Machine) :
    Machine × List Record :=
  let m1 := if cycle > 1 then apply_maintenance m (o.maint cycle m.machine_id) else m
  let m2 := { m1 with cycles_since_service := m1.cycles_since_service + 1 }
  let res := runDays o D cycle (List.range' 1 D)
    { machine := m2
      failure_occurred := false
      consecutive_high_risk_days := 0
      intermittent_fault_days := 0 }
  (res.1.machine, res.2)

/-- The `for machine in machines` loop for one cycle: returns the updated
machine list and the records of the cycle in machine order. -/
noncomputable def runCycle (o : Oracle) (D cycle : ℕ) :
    List Machine → List Machine × List Record
  | [] => ([], [])
  | m :: ms =>
    let head := runCycleMachine o D cycle m
    let rest := runCycle o D cycle ms
    (head.1 :: rest.1, head.2 ++ rest.2)

/-- The outer `for cycle in range(1, NUM_CYCLES + 1)` loop, threading the
machine list across cycles. -/
noncomputable def runCycles (o : Oracle) (D : ℕ) :
    List ℕ → List Machine → List Record
  | [], _ => []
  | c :: cs, ms =>
    let step := runCycle o D c ms
    step.2 ++ runCycles o D cs step.1

/-- The whole generation run (`rows` of the script) for `M` machines,
`C` cycles and `D` days per cycle. -/
noncomputable def simRun (o : Oracle) (M C D : ℕ) : List Record :=
  let machines := (List.range' 1 M).map fun i => mkMachine i (o.init i)
  runCycles o D (List.range' 1 C) machines

/-- Identifying key of a record: (cycle, machine id, day-in-cycle). -/
def recordKey (r : Record) : ℕ × ℕ × ℕ :=
  (r.cycle, r.machine_id, r.day_in_cycle)

/-- Modelled from the spec: the load model with the anomaly surge and the
anomaly dip as two independent events ("independently with probability 0.08
subtract a uniform(10,25) anomaly dip (both may trigger same day)"); the rest
is as in `generate_load_pattern`.  Used only to compare against the source,
whose dip sits on an `elif` branch of the surge. -/
noncomputable def generate_load_pattern_indep (day : ℕ) (cycle_day : ℕ) (dr : DayDraws) : ℝ :=
  let day_of_week := day % 7
  let day_of_year := day % 365
  let seasonal_factor : ℝ := 1.0 + 0.1 * Real.sin (2 * Real.pi * (day_of_year : ℝ) / 365)
  let base_load : ℝ :=
    if day_of_week = 5 ∨ day_of_week = 6 then 50 + 5 * dr.zBase
    else 68 + 8 * dr.zBase
  let base_load :=
    if day % 30 < 5 then base_load + (10 + 10 * dr.uMonthSurge)
    else if day % 30 > 25 then base_load - (5 + 10 * dr.uMonthDip)
    else base_load
  let base_load := base_load * seasonal_factor
  let base_load := if dr.rAnom1 < 0.1 then base_load + (15 + 15 * dr.uAnomSurge) else base_load
  let base_load := if dr.rAnom2 < 0.08 then base_load - (10 + 15 * dr.uAnomDip) else base_load
  max 35 (min 98 base_load)

/-- Clamped ranges guaranteed by `calculate_sensor_readings` for its output. -/
def SensorClamped (s : Sensors) : Prop :=
  40 ≤ s.temperature ∧ s.temperature ≤ 95 ∧
  0.02 ≤ s.vibration ∧ s.vibration ≤ 0.5 ∧
  1380 ≤ s.rpm ∧ 35 ≤ s.load ∧ s.load ≤ 98

/-- Bounds asserted by the spec for every emitted record. -/
def RecordBounds (r : Record) : Prop :=
  40 ≤ r.temperature ∧ r.temperature ≤ 95 ∧
  0.02 ≤ r.vibration ∧ r.vibration ≤ 0.5 ∧
  1380 ≤ r.rpm ∧ 35 ≤ r.load ∧ r.load ≤ 98 ∧
  (r.failure_event = 0 ∨ r.failure_event = 1) ∧
  (r.service_flag = 0 ∨ r.service_flag = 1)

/-- Creation-time parameters that the update methods never change, within the
ranges drawn in `MachineBehavior.__init__` (weakened to what the invariance
proofs use). -/
def MachineParams (m : Machine) : Prop :=
  0 ≤ m.age ∧ 0 < m.wear_resistance ∧ 0 < m.base_rpm ∧
  0.7 ≤ m.maintenance_quality ∧ m.maintenance_quality ≤ 1

/-- Hidden-state bounds asserted by the spec: `bearing_wear` and
`motor_degradation` in `[0, 1]`, `lubrication_quality` in `[0.1, 1]`. -/
def HiddenInv (m : Machine) : Prop :=
  0 ≤ m.bearing_wear ∧ m.bearing_wear ≤ 1 ∧
  0 ≤ m.motor_degradation ∧ m.motor_degradation ≤ 1 ∧
  0.1 ≤ m.lubrication_quality ∧ m.lubrication_quality ≤ 1

/-- Validity of creation draws: each reparametrized uniform draw lies in `[0,1]`. -/
def InitDrawsValid (d : InitDraws) : Prop :=
  0 ≤ d.uAge ∧ d.uAge ≤ 1 ∧ 0 ≤ d.uQuality ∧ d.uQuality ≤ 1 ∧
  0 ≤ d.uWear ∧ d.uWear ≤ 1 ∧ 0 ≤ d.uBaseTemp ∧ d.uBaseTemp ≤ 1 ∧
  0 ≤ d.uBaseVib ∧ d.uBaseVib ≤ 1 ∧ 0 ≤ d.uBaseRpm ∧ d.uBaseRpm ≤ 1 ∧
  0 ≤ d.uMaint ∧ d.uMaint ≤ 1

/-- Boolean test for a record being the failure row of machine `mid` in
cycle `c`. -/
def isFailureOf (mid c : ℕ) (r : Record) : Bool :=
  r.machine_id == mid && r.cycle == c && r.failure_event == 1

/-- Day draws with every realized value zero (used for concrete instances). -/
noncomputable def zeroDraws : DayDraws where
  zBase := 0
  uMonthSurge := 0
  uMonthDip := 0
  rAnom1 := 0
  uAnomSurge := 0
  rAnom2 := 0
  uAnomDip := 0
  zRpm := 0
  rFaultVib := 0
  uFaultVib := 0
  rFaultTemp := 0
  uFaultTemp := 0
  rFaultRpm := 0
  uFaultRpm := 0
  zTempNoise := 0
  zVibNoise := 0
  zRpmNoise := 0
  rGlitchTemp := 0
  uGlitchTemp := 0
  rGlitchVib := 0
  uGlitchVib := 0
  rFaultActivate := 0
  rRandomFail := 0
  rFail := 0

/-- Creation draws with every realized uniform at zero. -/
noncomputable def zeroInit : InitDraws where
  uAge := 0
  uQuality := 0
  uWear := 0
  uBaseTemp := 0
  uBaseVib := 0
  uBaseRpm := 0
  uMaint := 0

/-- An oracle realizing every draw at zero (used for concrete instances). -/
noncomputable def zeroOracle : Oracle where
  init := fun _ => zeroInit
  maint := fun _ _ => 0
  day := fun _ _ _ => zeroDraws

/-- A concrete machine state used in concrete instances. -/
noncomputable def sampleMachine : Machine where
  machine_id := 1
  age := 3
  quality := 1
  wear_resistance := 1
  bearing_wear := 0.5
  motor_degradation := 0.5
  thermal_stress := 0
  lubrication_quality := 0.1
  base_temp := 60
  base_vib := 0.05
  base_rpm := 1450
  cycles_since_service := 1
  total_operating_hours := 24
  stress_accumulation := 1
  maintenance_quality := 1
  previous_failures := 0
  last_maintenance_effectiveness := 1
  intermittent_fault_active := false

/-- A concrete clamped sensor reading used in concrete instances. -/
noncomputable def sampleSensors : Sensors where
  temperature := 70
  vibration := 0.1
  rpm := 1450
  load := 50

/-- The concrete day draws of the C5 counterexample: both anomaly triggers
fire (`rAnom1 = 0 < 0.1`, `rAnom2 = 0 < 0.08`) with surge draw `1/3`
(so the surge adds 20) and dip draw `1/3` (so an applied dip subtracts 15). -/
noncomputable def bothAnomDraws : DayDraws :=
  { zeroDraws with uAnomSurge := 1/3, uAnomDip := 1/3 }

/-- C4: for every machine state with `bearing_wear > 0.95` and every sensor
reading with `temperature < 85`, `vibration < 0.35` and
`lubrication_quality ≥ 0.05`, `check_failure_risk` returns exactly 1.0: the
bearing-wear hard-failure override fires regardless of the per-mode risks,
the age multiplier and the random-failure draw. -/
theorem C4_bearing_wear_override (m : Machine) (s : Sensors) (day : ℕ) (dr : DayDraws)
    (hbw : m.bearing_wear > 0.95) (htemp : s.temperature < 85)
    (hvib : s.vibration < 0.35) (hlub : 0.05 ≤ m.lubrication_quality) :
    (check_failure_risk m s day dr).1 = 1 := by
  have hcrit : s.temperature > 85 ∨ s.vibration > 0.35 ∨
      m.bearing_wear > 0.95 ∨ m.lubrication_quality < 0.05 :=
    Or.inr (Or.inr (Or.inl hbw))
  simp [check_failure_risk, hcrit]
  norm_num

/-- Witness for C4: a machine with `bearing_wear = 0.96` and a benign sensor
reading still yields risk exactly 1. -/
theorem C4_bearing_wear_override_witness :
    ({ sampleMachine with bearing_wear := 0.96 } : Machine).bearing_wear > 0.95 ∧
    (check_failure_risk { sampleMachine with bearing_wear := 0.96 }
      sampleSensors 10 zeroDraws).1 = 1 :=
  ⟨by norm_num [sampleMachine],
   C4_bearing_wear_override _ _ _ _ (by norm_num [sampleMachine])
     (by norm_num [sampleSensors]) (by norm_num [sampleSensors])
     (by norm_num [sampleMachine])⟩

/-- C10: for every machine state with `bearing_wear < 1`, positive wear
resistance and nonnegative age, and every sensor reading within the output
clamps (`vibration ≥ 0.02`, `load ≥ 35`), the daily degradation update
strictly increases `bearing_wear`. -/
theorem C10_bearing_wear_strict_increase (m : Machine) (s : Sensors) (day : ℕ)
    (hbw : m.bearing_wear < 1) (hwr : 0 < m.wear_resistance) (hage : 0 ≤ m.age)
    (hvib : 0.02 ≤ s.vibration) (hload : 35 ≤ s.load) :
    m.bearing_wear < (update_degradation m s day).bearing_wear := by
  have hrate : 0 < (s.vibration * 0.5 + s.load / 100 * 0.1) * (1 / m.wear_resistance) := by
    have h1 : 0 < s.vibration * 0.5 + s.load / 100 * 0.1 := by nlinarith
    have h2 : 0 < 1 / m.wear_resistance := by positivity
    exact mul_pos h1 h2
  have haf : 0 < min 2.0 (1.0 + m.age / 10) := by
    apply lt_min
    · norm_num
    · nlinarith
  have hinc : 0 < (s.vibration * 0.5 + s.load / 100 * 0.1) * (1 / m.wear_resistance) *
      0.001 * min 2.0 (1.0 + m.age / 10) :=
    mul_pos (mul_pos hrate (by norm_num)) haf
  simp only [update_degradation]
  rw [lt_min_iff]
  exact ⟨by linarith, by linarith⟩

/-- Witness for C10 at a concrete machine state and sensor reading. -/
theorem C10_bearing_wear_strict_increase_witness :
    sampleMachine.bearing_wear < 1 ∧
    sampleMachine.bearing_wear <
      (update_degradation sampleMachine sampleSensors 10).bearing_wear :=
  ⟨by norm_num [sampleMachine],
   C10_bearing_wear_strict_increase sampleMachine sampleSensors 10
     (by norm_num [sampleMachine]) (by norm_num [sampleMachine])
     (by norm_num [sampleMachine]) (by norm_num [sampleSensors])
     (by norm_num [sampleSensors])⟩

/-- C6 counterexample: with effectiveness exactly 1 (maintenance quality 1 and
workmanship draw 1), a machine whose lubrication quality starts at 0.1 ends
maintenance at `min 1 (0.1 + 0.6) = 0.7`, not at 1.0 as the claim states. -/
theorem C6_counterexample :
    (apply_maintenance sampleMachine 1).lubrication_quality ≠ 1 := by
  norm_num [apply_maintenance, sampleMachine, min_def]

/-- C6 (amended): applying maintenance with effectiveness 1 multiplies
`bearing_wear` by 0.2 and `motor_degradation` by 0.3, and sets
`lubrication_quality` to `min 1 (lubrication_quality + 0.6)` — which equals
1.0 exactly when the starting value is at least 0.4, not for every starting
value in `[0.1, 1]`. -/
theorem C6_maintenance_effectiveness_one (m : Machine) (u : ℝ)
    (heff : m.maintenance_quality * (0.8 + 0.2 * u) = 1) :
    (apply_maintenance m u).bearing_wear = m.bearing_wear * 0.2 ∧
    (apply_maintenance m u).motor_degradation = m.motor_degradation * 0.3 ∧
    (apply_maintenance m u).lubrication_quality = min 1 (m.lubrication_quality + 0.6) ∧
    (0.4 ≤ m.lubrication_quality → (apply_maintenance m u).lubrication_quality = 1) := by
  refine ⟨?_, ?_, ?_, fun hl => ?_⟩
  · simp only [apply_maintenance]
    rw [heff]
    norm_num
  · simp only [apply_maintenance]
    rw [heff]
    norm_num
  · simp only [apply_maintenance]
    rw [heff]
    norm_num
  · simp only [apply_maintenance]
    rw [heff]
    rw [mul_one, min_eq_left (by linarith)]
    norm_num

/-- Witness for C6 (amended) at a concrete machine with maintenance quality 1
and workmanship draw 1. -/
theorem C6_maintenance_effectiveness_one_witness :
    sampleMachine.maintenance_quality * (0.8 + 0.2 * 1) = 1 ∧
    (apply_maintenance sampleMachine 1).bearing_wear = sampleMachine.bearing_wear * 0.2 :=
  ⟨by norm_num [sampleMachine],
   (C6_maintenance_effectiveness_one sampleMachine 1 (by norm_num [sampleMachine])).1⟩

/-- C5 counterexample: on absolute day 365 with draws making both anomaly
triggers fire (`rAnom1 = 0 < 0.1` and `rAnom2 = 0 < 0.08`), the source load
(surge only, `elif` skips the dip: 88) differs from the value obtained when
both the surge and the dip are applied as independent events (73): the dip is
never applied on a day when the surge fires. -/
theorem C5_counterexample :
    generate_load_pattern 365 5 bothAnomDraws ≠
      generate_load_pattern_indep 365 5 bothAnomDraws := by
  norm_num [generate_load_pattern, generate_load_pattern_indep, bothAnomDraws,
    zeroDraws, Real.sin_zero, min_def, max_def]

/-- C5 (amended): the anomaly dip sits on an `elif` branch of the anomaly
surge, so whenever the surge triggers (`rAnom1 < 0.1`) the dip draws are
irrelevant: the two events are mutually exclusive, never both applied on the
same day. -/
theorem C5_anomaly_dip_excluded_by_surge (day : ℕ) (cycle_day : ℕ) (dr : DayDraws)
    (w v : ℝ) (h : dr.rAnom1 < 0.1) :
    generate_load_pattern day cycle_day { dr with rAnom2 := w, uAnomDip := v } =
      generate_load_pattern day cycle_day dr := by
  simp [generate_load_pattern, h]

/-- Witness for C5 (amended) at the concrete counterexample draws. -/
theorem C5_anomaly_dip_excluded_by_surge_witness :
    generate_load_pattern 365 5 { bothAnomDraws with rAnom2 := 0.5, uAnomDip := 0.9 } =
      generate_load_pattern 365 5 bothAnomDraws :=
  C5_anomaly_dip_excluded_by_surge 365 5 bothAnomDraws 0.5 0.9
    (by norm_num [bothAnomDraws, zeroDraws])

/-- Rounding to `n` decimal digits is monotone. -/
theorem pyround_mono {x y : ℝ} (n : ℕ) (h : x ≤ y) : pyround x n ≤ pyround y n := by
  have hp : (0 : ℝ) < 10 ^ n := by positivity
  have hr : (round (x * 10 ^ n) : ℤ) ≤ round (y * 10 ^ n) := by
    rw [round_eq, round_eq]
    exact Int.floor_le_floor (by nlinarith)
  have hr2 : ((round (x * 10 ^ n) : ℤ) : ℝ) ≤ ((round (y * 10 ^ n) : ℤ) : ℝ) := by
    exact_mod_cast hr
  rw [pyround, pyround]
  gcongr

/-- Rounding a value of `[35, 98]` to one decimal digit stays in `[35, 98]`. -/
theorem pyround_load_bounds {x : ℝ} (h35 : 35 ≤ x) (h98 : x ≤ 98) :
    35 ≤ pyround x 1 ∧ pyround x 1 ≤ 98 := by
  have e1 : pyround 35 1 = 35 := by
    have h : (35 : ℝ) * 10 ^ 1 = ((350 : ℤ) : ℝ) := by norm_num
    rw [pyround, h, round_intCast]
    norm_num
  have e2 : pyround 98 1 = 98 := by
    have h : (98 : ℝ) * 10 ^ 1 = ((980 : ℤ) : ℝ) := by norm_num
    rw [pyround, h, round_intCast]
    norm_num
  constructor
  · calc (35 : ℝ) = pyround 35 1 := e1.symm
      _ ≤ pyround x 1 := pyround_mono 1 h35
  · calc pyround x 1 ≤ pyround 98 1 := pyround_mono 1 h98
      _ = 98 := e2

/-- The load produced by `generate_load_pattern` lies in `[35, 98]`. -/
theorem generate_load_pattern_mem (day cycle_day : ℕ) (dr : DayDraws) :
    35 ≤ generate_load_pattern day cycle_day dr ∧
      generate_load_pattern day cycle_day dr ≤ 98 := by
  unfold generate_load_pattern
  exact ⟨le_max_left _ _, max_le (by norm_num) (min_le_left _ _)⟩

/-- The sensor dictionary returned by `calculate_sensor_readings` satisfies
the clamp ranges whenever the supplied load does. -/
theorem calculate_sensor_readings_clamped (m : Machine) (d : ℕ) (load : ℝ)
    (dr : DayDraws) (h35 : 35 ≤ load) (h98 : load ≤ 98) :
    SensorClamped (calculate_sensor_readings m d load dr) := by
  obtain ⟨hl1, hl2⟩ := pyround_load_bounds h35 h98
  unfold calculate_sensor_readings SensorClamped
  refine ⟨le_max_left _ _, max_le (by norm_num) (min_le_left _ _),
    le_max_left _ _, max_le (by norm_num) (min_le_left _ _),
    le_max_left _ _, hl1, hl2⟩

/-- An if-then-else with arms 1 and 0 takes a value in 0/1. -/
theorem ite_zero_or_one (c : Prop) [Decidable c] :
    (if c then (1 : ℕ) else 0) = 0 ∨ (if c then (1 : ℕ) else 0) = 1 := by
  split
  · exact Or.inr rfl
  · exact Or.inl rfl

/-- The record emitted by one `runDay` step satisfies the spec bounds. -/
theorem runDay_record_bounds (o : Oracle) (D cycle d : ℕ) (s : DayState) :
    RecordBounds (runDay o D cycle d s).2 := by
  obtain ⟨hl1, hl2⟩ := generate_load_pattern_mem ((cycle - 1) * D + d) d
    (o.day cycle s.machine.machine_id d)
  obtain ⟨h1, h2, h3, h4, h5, h6, h7⟩ :=
    calculate_sensor_readings_clamped s.machine d
      (generate_load_pattern ((cycle - 1) * D + d) d (o.day cycle s.machine.machine_id d))
      (o.day cycle s.machine.machine_id d) hl1 hl2
  simp only [runDay, RecordBounds]
  exact ⟨h1, h2, h3, h4, h5, h6, h7, ite_zero_or_one _, ite_zero_or_one _⟩

/-- Every record of `runDays` is a `runDay` output. -/
theorem mem_runDays_records {o : Oracle} {D cycle : ℕ} {ds : List ℕ}
    {s : DayState} {r : Record} (h : r ∈ (runDays o D cycle ds s).2) :
    ∃ d s', r = (runDay o D cycle d s').2 := by
  induction ds generalizing s with
  | nil => simp [runDays] at h
  | cons d ds ih =>
    rw [runDays] at h
    simp only [List.mem_cons] at h
    rcases h with h | h
    · exact ⟨d, s, h⟩
    · exact ih h

/-- Every record of `runCycleMachine` is a `runDay` output. -/
theorem mem_runCycleMachine_records {o : Oracle} {D cycle : ℕ} {m : Machine}
    {r : Record} (h : r ∈ (runCycleMachine o D cycle m).2) :
    ∃ d s', r = (runDay o D cycle d s').2 := by
  unfold runCycleMachine at h
  exact mem_runDays_records h

/-- Every record of `runCycle` is a `runDay` output. -/
theorem mem_runCycle_records {o : Oracle} {D cycle : ℕ} {ms : List Machine}
    {r : Record} (h : r ∈ (runCycle o D cycle ms).2) :
    ∃ d s', r = (runDay o D cycle d s').2 := by
  induction ms with
  | nil => simp [runCycle] at h
  | cons m ms ih =>
    rw [runCycle] at h
    simp only [List.mem_append] at h
    rcases h with h | h
    · exact mem_runCycleMachine_records h
    · exact ih h

/-- Every record of `runCycles` is a `runDay` output. -/
theorem mem_runCycles_records {o : Oracle} {D : ℕ} {cs : List ℕ}
    {ms : List Machine} {r : Record} (h : r ∈ runCycles o D cs ms) :
    ∃ cycle d s', r = (runDay o D cycle d s').2 := by
  induction cs generalizing ms with
  | nil => simp [runCycles] at h
  | cons c cs ih =>
    rw [runCycles] at h
    simp only [List.mem_append] at h
    rcases h with h | h
    · obtain ⟨d, s', hr⟩ := mem_runCycle_records h
      exact ⟨c, d, s', hr⟩
    · exact ih h

/-- Every record of a full run is a `runDay` output. -/
theorem mem_simRun_records {o : Oracle} {M C D : ℕ} {r : Record}
    (h : r ∈ simRun o M C D) : ∃ cycle d s', r = (runDay o D cycle d s').2 := by
  unfold simRun at h
  exact mem_runCycles_records h

/-- C1: every record emitted by the simulation driver satisfies
`40 ≤ temperature ≤ 95`, `0.02 ≤ vibration ≤ 0.5`, `rpm ≥ 1380`,
`35 ≤ load ≤ 98`, and has `failure_event` and `service_flag` in `{0, 1}`. -/
theorem C1_record_bounds (o : Oracle) (M C D : ℕ) :
    (simRun o M C D).Forall RecordBounds := by
  rw [List.forall_iff_forall_mem]
  intro r hr
  obtain ⟨cycle, d, s', rfl⟩ := mem_simRun_records hr
  exact runDay_record_bounds o D cycle d s'

/-- A `runDay` step does not change the machine id. -/
theorem runDay_machine_id (o : Oracle) (D cycle d : ℕ) (s : DayState) :
    (runDay o D cycle d s).1.machine.machine_id = s.machine.machine_id := by
  simp only [runDay, apply_ite Machine.machine_id, ite_self]
  rfl

/-- The record of a `runDay` step carries the step's cycle, machine id and
day-in-cycle. -/
theorem runDay_record_key (o : Oracle) (D cycle d : ℕ) (s : DayState) :
    recordKey (runDay o D cycle d s).2 = (cycle, s.machine.machine_id, d) := by
  simp only [runDay, recordKey, apply_ite Machine.machine_id, ite_self]
  rfl

/-- `runDays` does not change the machine id. -/
theorem runDays_machine_id (o : Oracle) (D cycle : ℕ) (ds : List ℕ) (s : DayState) :
    (runDays o D cycle ds s).1.machine.machine_id = s.machine.machine_id := by
  induction ds generalizing s with
  | nil => rfl
  | cons d ds ih =>
    rw [runDays]
    exact (ih _).trans (runDay_machine_id o D cycle d s)

/-- The records of `runDays` are keyed by the step's cycle and machine id and
the supplied day list, in order. -/
theorem runDays_map_key (o : Oracle) (D cycle : ℕ) (ds : List ℕ) (s : DayState) :
    ((runDays o D cycle ds s).2).map recordKey =
      ds.map fun d => (cycle, s.machine.machine_id, d) := by
  induction ds generalizing s with
  | nil => rfl
  | cons d ds ih =>
    rw [runDays]
    simp only [List.map_cons, runDay_record_key, ih, runDay_machine_id]

/-- The number of records of `runDays` is the number of supplied days. -/
theorem runDays_length (o : Oracle) (D cycle : ℕ) (ds : List ℕ) (s : DayState) :
    ((runDays o D cycle ds s).2).length = ds.length := by
  have h := congrArg List.length (runDays_map_key o D cycle ds s)
  simpa using h

/-- `runCycleMachine` does not change the machine id. -/
theorem runCycleMachine_machine_id (o : Oracle) (D cycle : ℕ) (m : Machine) :
    (runCycleMachine o D cycle m).1.machine_id = m.machine_id := by
  unfold runCycleMachine
  rw [runDays_machine_id]
  split <;> rfl

/-- The records of `runCycleMachine` are keyed by the cycle, the machine's id
and the days `1, ..., D` in order. -/
theorem runCycleMachine_map_key (o : Oracle) (D cycle : ℕ) (m : Machine) :
    ((runCycleMachine o D cycle m).2).map recordKey =
      (List.range' 1 D).map fun d => (cycle, m.machine_id, d) := by
  unfold runCycleMachine
  rw [runDays_map_key]
  have hmid : (if cycle > 1 then apply_maintenance m (o.maint cycle m.machine_id)
      else m).machine_id = m.machine_id := by
    split <;> rfl
  simp [hmid]

/-- `runCycle` preserves the list of machine ids. -/
theorem runCycle_map_id (o : Oracle) (D cycle : ℕ) (ms : List Machine) :
    ((runCycle o D cycle ms).1).map Machine.machine_id = ms.map Machine.machine_id := by
  induction ms with
  | nil => rfl
  | cons m ms ih =>
    rw [runCycle]
    simp only [List.map_cons, runCycleMachine_machine_id, ih]

/-- The records of one cycle are keyed by that cycle, the machine ids in
order, and the days `1, ..., D` per machine. -/
theorem runCycle_map_key (o : Oracle) (D cycle : ℕ) (ms : List Machine) :
    ((runCycle o D cycle ms).2).map recordKey =
      (ms.map Machine.machine_id).flatMap fun i =>
        (List.range' 1 D).map fun d => (cycle, i, d) := by
  induction ms with
  | nil => rfl
  | cons m ms ih =>
    rw [runCycle]
    simp only [List.map_append, List.map_cons, List.flatMap_cons,
      runCycleMachine_map_key, ih]

/-- The records of `runCycles` are keyed by cycle, machine id and day, in
cycle-major, then machine, then day order. -/
theorem runCycles_map_key (o : Oracle) (D : ℕ) (cs : List ℕ) (ms : List Machine) :
    (runCycles o D cs ms).map recordKey =
      cs.flatMap fun c => (ms.map Machine.machine_id).flatMap fun i =>
        (List.range' 1 D).map fun d => (c, i, d) := by
  induction cs generalizing ms with
  | nil => rfl
  | cons c cs ih =>
    rw [runCycles]
    simp only [List.map_append, List.flatMap_cons, runCycle_map_key, ih,
      runCycle_map_id]

/-- The key enumeration of a full run: every (cycle, machine, day) triple of
the configured ranges appears exactly once, in loop order. -/
theorem simRun_map_key (o : Oracle) (M C D : ℕ) :
    (simRun o M C D).map recordKey =
      (List.range' 1 C).flatMap fun c => (List.range' 1 M).flatMap fun i =>
        (List.range' 1 D).map fun d => (c, i, d) := by
  unfold simRun
  rw [runCycles_map_key]
  have hids : ((List.range' 1 M).map fun i => mkMachine i (o.init i)).map
      Machine.machine_id = List.range' 1 M := by
    rw [List.map_map]
    simp [Function.comp_def, mkMachine]
  simp only [hids]

/-- `runCycle` keeps the number of machines. -/
theorem runCycle_machines_length (o : Oracle) (D cycle : ℕ) (ms : List Machine) :
    ((runCycle o D cycle ms).1).length = ms.length := by
  have h := congrArg List.length (runCycle_map_id o D cycle ms)
  simpa using h

/-- One cycle emits `D` records per machine. -/
theorem runCycle_length (o : Oracle) (D cycle : ℕ) (ms : List Machine) :
    ((runCycle o D cycle ms).2).length = ms.length * D := by
  induction ms with
  | nil => simp [runCycle]
  | cons m ms ih =>
    rw [runCycle]
    simp only [List.length_append, List.length_cons, ih]
    have hone : ((runCycleMachine o D cycle m).2).length = D := by
      unfold runCycleMachine
      rw [runDays_length, List.length_range']
    rw [hone]
    ring

/-- `runCycles` emits `|cs| * (|ms| * D)` records. -/
theorem runCycles_length (o : Oracle) (D : ℕ) (cs : List ℕ) (ms : List Machine) :
    (runCycles o D cs ms).length = cs.length * (ms.length * D) := by
  induction cs generalizing ms with
  | nil => simp [runCycles]
  | cons c cs ih =>
    rw [runCycles]
    simp only [List.length_append, List.length_cons, ih, runCycle_length,
      runCycle_machines_length]
    ring

/-- The number of records of a full run is `M * C * D`. -/
theorem simRun_length (o : Oracle) (M C D : ℕ) :
    (simRun o M C D).length = M * C * D := by
  unfold simRun
  rw [runCycles_length]
  simp only [List.length_range', List.length_map]
  ring

/-- C9: for every machine count `M`, cycle count `C` and days-per-cycle `D`,
the run emits exactly `M * C * D` records, keyed by every (cycle, machine,
day) triple of the configured ranges exactly once in loop order (no
machine-day omitted or duplicated); with the default configuration of 10
machines, 10 cycles and 180 days per cycle this is exactly 18000 records. -/
theorem C9_record_count :
    (∀ (o : Oracle) (M C D : ℕ), (simRun o M C D).length = M * C * D) ∧
    (∀ (o : Oracle) (M C D : ℕ), (simRun o M C D).map recordKey =
      (List.range' 1 C).flatMap fun c => (List.range' 1 M).flatMap fun i =>
        (List.range' 1 D).map fun d => (c, i, d)) ∧
    (∀ o : Oracle, (simRun o 10 10 180).length = 18000) :=
  ⟨simRun_length, simRun_map_key, fun o => by rw [simRun_length]⟩

/-- Anatomy of one `runDay` step: there is a Bool `fe` (the failure decision)
such that the record's failure flag is `fe` as 0/1, the new `failure_occurred`
is the old one or-ed with `fe`, and `fe` is false whenever a failure had
already occurred in the cycle. -/
theorem runDay_anatomy (o : Oracle) (D cycle d : ℕ) (s : DayState) :
    ∃ fe : Bool, (runDay o D cycle d s).2.failure_event = (if fe then 1 else 0) ∧
      (runDay o D cycle d s).1.failure_occurred = (s.failure_occurred || fe) ∧
      (s.failure_occurred = true → fe = false) := by
  refine ⟨_, rfl, rfl, fun h => ?_⟩
  rw [h]
  rfl

/-- After a failure has occurred, the remaining days of the cycle emit no
further failure flag and keep `failure_occurred` set. -/
theorem runDays_after_failure (o : Oracle) (D cycle : ℕ) (ds : List ℕ)
    (s : DayState) (h : s.failure_occurred = true) :
    ((runDays o D cycle ds s).2).countP (fun r => r.failure_event == 1) = 0 ∧
      (runDays o D cycle ds s).1.failure_occurred = true := by
  induction ds generalizing s with
  | nil => exact ⟨rfl, h⟩
  | cons d ds ih =>
    obtain ⟨fe, hfe, hfo, himp⟩ := runDay_anatomy o D cycle d s
    have hfe0 : fe = false := himp h
    subst hfe0
    have h' : (runDay o D cycle d s).1.failure_occurred = true := by
      rw [hfo, h]
      rfl
    obtain ⟨ht1, ht2⟩ := ih ((runDay o D cycle d s).1) h'
    rw [runDays]
    refine ⟨?_, ht2⟩
    rw [List.countP_cons, ht1, hfe]
    simp

/-- Starting a day loop with no failure yet, at most one record of the loop
carries `failure_event = 1`. -/
theorem runDays_countP_le_one (o : Oracle) (D cycle : ℕ) (ds : List ℕ)
    (s : DayState) (h : s.failure_occurred = false) :
    ((runDays o D cycle ds s).2).countP (fun r => r.failure_event == 1) ≤ 1 := by
  induction ds generalizing s with
  | nil => simp [runDays]
  | cons d ds ih =>
    obtain ⟨fe, hfe, hfo, _⟩ := runDay_anatomy o D cycle d s
    rw [runDays, List.countP_cons, hfe]
    cases fe with
    | false =>
      have h' : (runDay o D cycle d s).1.failure_occurred = false := by
        rw [hfo, h]
        rfl
      have := ih ((runDay o D cycle d s).1) h'
      simpa using this
    | true =>
      have h' : (runDay o D cycle d s).1.failure_occurred = true := by
        rw [hfo]
        simp
      have := (runDays_after_failure o D cycle ds ((runDay o D cycle d s).1) h').1
      simp [this]

/-- One (cycle, machine) block emits at most one failure record. -/
theorem runCycleMachine_countP_le_one (o : Oracle) (D cycle : ℕ) (m : Machine) :
    ((runCycleMachine o D cycle m).2).countP (fun r => r.failure_event == 1) ≤ 1 := by
  unfold runCycleMachine
  exact runDays_countP_le_one o D cycle (List.range' 1 D) _ rfl

/-- `isFailureOf` unfolded to a conjunction of equalities. -/
theorem isFailureOf_iff {mid c : ℕ} {r : Record} :
    isFailureOf mid c r = true ↔
      r.machine_id = mid ∧ r.cycle = c ∧ r.failure_event = 1 := by
  simp [isFailureOf, and_assoc]

/-- Records of one (cycle, machine) block carry that cycle and machine id. -/
theorem runCycleMachine_record_fields {o : Oracle} {D cycle : ℕ} {m : Machine}
    {r : Record} (h : r ∈ (runCycleMachine o D cycle m).2) :
    r.cycle = cycle ∧ r.machine_id = m.machine_id := by
  have h2 : recordKey r ∈ ((runCycleMachine o D cycle m).2).map recordKey :=
    List.mem_map_of_mem _ h
  rw [runCycleMachine_map_key] at h2
  simp only [List.mem_map] at h2
  obtain ⟨d, _, hd⟩ := h2
  rw [recordKey, Prod.ext_iff, Prod.ext_iff] at hd
  exact ⟨hd.1.symm, hd.2.1.symm⟩

/-- Records of one cycle carry that cycle and one of the machine ids. -/
theorem mem_runCycle_record_fields {o : Oracle} {D cycle : ℕ} {ms : List Machine}
    {r : Record} (h : r ∈ (runCycle o D cycle ms).2) :
    r.cycle = cycle ∧ r.machine_id ∈ ms.map Machine.machine_id := by
  induction ms with
  | nil => simp [runCycle] at h
  | cons m ms ih =>
    rw [runCycle] at h
    simp only [List.mem_append] at h
    rcases h with h | h
    · obtain ⟨h1, h2⟩ := runCycleMachine_record_fields h
      exact ⟨h1, by simp [h2]⟩
    · obtain ⟨h1, h2⟩ := ih h
      exact ⟨h1, by simp [h2]⟩

/-- Every record of `runCycles` carries one of the supplied cycle indices. -/
theorem mem_runCycles_record_cycle {o : Oracle} {D : ℕ} {cs : List ℕ}
    {ms : List Machine} {r : Record} (h : r ∈ runCycles o D cs ms) :
    r.cycle ∈ cs := by
  induction cs generalizing ms with
  | nil => simp [runCycles] at h
  | cons c cs ih =>
    rw [runCycles] at h
    simp only [List.mem_append] at h
    rcases h with h | h
    · exact (mem_runCycle_record_fields h).1 ▸ List.mem_cons_self c cs
    · exact List.mem_cons_of_mem c (ih h)

/-- Within one cycle over machines with distinct ids, at most one record is
the failure row of machine `mid` in cycle `c`. -/
theorem runCycle_countP_le_one (o : Oracle) (D c : ℕ) (ms : List Machine)
    (hnodup : (ms.map Machine.machine_id).Nodup) (mid : ℕ) :
    ((runCycle o D c ms).2).countP (isFailureOf mid c) ≤ 1 := by
  induction ms with
  | nil => simp [runCycle]
  | cons m ms ih =>
    rw [runCycle]
    rw [List.countP_append]
    rw [List.map_cons, List.nodup_cons] at hnodup
    by_cases hm : m.machine_id = mid
    · have htail : ((runCycle o D c ms).2).countP (isFailureOf mid c) = 0 := by
        rw [List.countP_eq_zero]
        intro r hr hp
        obtain ⟨hp1, _, _⟩ := isFailureOf_iff.mp hp
        have hmem := (mem_runCycle_record_fields hr).2
        rw [hp1, ← hm] at hmem
        exact hnodup.1 hmem
      have hhead : ((runCycleMachine o D c m).2).countP (isFailureOf mid c) ≤ 1 := by
        refine le_trans (List.countP_mono_left ?_) (runCycleMachine_countP_le_one o D c m)
        intro r _ hp
        simp [(isFailureOf_iff.mp hp).2.2]
      omega
    · have hhead : ((runCycleMachine o D c m).2).countP (isFailureOf mid c) = 0 := by
        rw [List.countP_eq_zero]
        intro r hr hp
        obtain ⟨hp1, _, _⟩ := isFailureOf_iff.mp hp
        have := (runCycleMachine_record_fields hr).2
        exact hm (this.symm.trans hp1)
      have := ih hnodup.2
      omega

/-- No record of a cycle block with index `c'` is a failure row of cycle
`c ≠ c'`. -/
theorem runCycle_countP_zero_of_ne (o : Oracle) (D c' : ℕ) (ms : List Machine)
    (mid c : ℕ) (hne : c' ≠ c) :
    ((runCycle o D c' ms).2).countP (isFailureOf mid c) = 0 := by
  rw [List.countP_eq_zero]
  intro r hr hp
  obtain ⟨_, hp2, _⟩ := isFailureOf_iff.mp hp
  exact hne ((mem_runCycle_record_fields hr).1 ▸ hp2)

/-- Across distinct cycles over machines with distinct ids, at most one record
is the failure row of machine `mid` in cycle `c`. -/
theorem runCycles_countP_le_one (o : Oracle) (D : ℕ) (cs : List ℕ)
    (ms : List Machine) (hcs : cs.Nodup)
    (hms : (ms.map Machine.machine_id).Nodup) (mid c : ℕ) :
    (runCycles o D cs ms).countP (isFailureOf mid c) ≤ 1 := by
  induction cs generalizing ms with
  | nil => simp [runCycles]
  | cons c' cs ih =>
    rw [runCycles, List.countP_append]
    rw [List.nodup_cons] at hcs
    by_cases hc : c' = c
    · subst hc
      have htail : (runCycles o D cs (runCycle o D c' ms).1).countP
          (isFailureOf mid c') = 0 := by
        rw [List.countP_eq_zero]
        intro r hr hp
        obtain ⟨_, hp2, _⟩ := isFailureOf_iff.mp hp
        exact hcs.1 (hp2 ▸ mem_runCycles_record_cycle hr)
      have hhead := runCycle_countP_le_one o D c' ms hms mid
      omega
    · have hhead := runCycle_countP_zero_of_ne o D c' ms mid c hc
      have hids : (((runCycle o D c' ms).1).map Machine.machine_id).Nodup := by
        rw [runCycle_map_id]
        exact hms
      have htail := ih (runCycle o D c' ms).1 hcs.2 hids
      omega

/-- The machine ids created at the start of a run are `1, ..., M`. -/
theorem initial_machine_ids (o : Oracle) (M : ℕ) :
    (((List.range' 1 M).map fun i => mkMachine i (o.init i)).map
      Machine.machine_id) = List.range' 1 M := by
  rw [List.map_map]
  simp [Function.comp_def, mkMachine]

/-- C2: for every machine and cycle, at most one emitted record carries
`failure_event = 1`; moreover once `failure_occurred` is set, each further
day of the cycle emits `failure_event = 0` (while the sensor and degradation
simulation continues) and keeps the flag set; the flag starts afresh (false)
at every (machine, cycle) block. -/
theorem C2_at_most_one_failure_per_cycle :
    (∀ (o : Oracle) (M C D mid c : ℕ),
      (simRun o M C D).countP (isFailureOf mid c) ≤ 1) ∧
    (∀ (o : Oracle) (D cycle d : ℕ) (s : DayState), s.failure_occurred = true →
      (runDay o D cycle d s).2.failure_event = 0 ∧
      (runDay o D cycle d s).1.failure_occurred = true) := by
  constructor
  · intro o M C D mid c
    unfold simRun
    refine runCycles_countP_le_one o D _ _ (List.nodup_range' 1 C) ?_ mid c
    rw [initial_machine_ids]
    exact List.nodup_range' 1 M
  · intro o D cycle d s h
    obtain ⟨fe, hfe, hfo, himp⟩ := runDay_anatomy o D cycle d s
    have hfe0 : fe = false := himp h
    subst hfe0
    refine ⟨by rw [hfe]; rfl, by rw [hfo, h]; rfl⟩

/-- Witness for C2 (second conjunct) at a concrete already-failed state. -/
theorem C2_at_most_one_failure_per_cycle_witness :
    (runDay zeroOracle 180 1 2 ⟨sampleMachine, true, 0, 0⟩).2.failure_event = 0 :=
  (C2_at_most_one_failure_per_cycle.2 zeroOracle 180 1 2
    ⟨sampleMachine, true, 0, 0⟩ rfl).1

/-- A min against 1.0 is at most 1. -/
theorem min_one_le_one {x : ℝ} : min 1.0 x ≤ 1 :=
  le_trans (min_le_left _ _) (by norm_num)

set_option maxHeartbeats 1000000 in
/-- C3: the hidden-state bounds `0 ≤ bearing_wear ≤ 1`,
`0 ≤ motor_degradation ≤ 1` and `0.1 ≤ lubrication_quality ≤ 1` hold at every
point of a run: they hold at machine creation (together with the fixed
creation parameters), they are preserved by every daily degradation update
(whose sensor input is always clamped), they are untouched by the risk
computation (which only toggles the fault flag), and they are preserved by
every maintenance application (whose workmanship draw is a uniform of
`[0, 1]`); the fixed creation parameters are never modified. -/
theorem C3_hidden_state_bounds :
    (∀ (i : ℕ) (d : InitDraws), InitDrawsValid d →
      HiddenInv (mkMachine i d) ∧ MachineParams (mkMachine i d)) ∧
    (∀ (m : Machine) (s : Sensors) (day : ℕ), MachineParams m → HiddenInv m →
      SensorClamped s → HiddenInv (update_degradation m s day)) ∧
    (∀ (m : Machine) (s : Sensors) (day : ℕ),
      MachineParams (update_degradation m s day) = MachineParams m) ∧
    (∀ (m : Machine) (s : Sensors) (day : ℕ) (dr : DayDraws),
      HiddenInv (check_failure_risk m s day dr).2 = HiddenInv m ∧
      MachineParams (check_failure_risk m s day dr).2 = MachineParams m) ∧
    (∀ (m : Machine) (u : ℝ), MachineParams m → HiddenInv m → 0 ≤ u → u ≤ 1 →
      HiddenInv (apply_maintenance m u)) ∧
    (∀ (m : Machine) (u : ℝ),
      MachineParams (apply_maintenance m u) = MachineParams m) := by
  refine ⟨?_, ?_, fun m s day => rfl, fun m s day dr => ⟨rfl, rfl⟩, ?_,
    fun m u => rfl⟩
  · intro i d hd
    obtain ⟨h1, h2, h3, h4, h5, h6, h7, h8, h9, h10, h11, h12, h13, h14⟩ := hd
    unfold mkMachine HiddenInv MachineParams
    norm_num
    refine ⟨by nlinarith, by nlinarith, by nlinarith, by nlinarith, by nlinarith⟩
  · intro m s day hp hi hs
    obtain ⟨hage, hwr, hrpm, hq1, hq2⟩ := hp
    obtain ⟨hb1, hb2, hm1, hm2, hl1, hl2⟩ := hi
    obtain ⟨ht1, ht2, hv1, hv2, hr1, hld1, hld2⟩ := hs
    have hafn : (0 : ℝ) ≤ min 2.0 (1.0 + m.age / 10) :=
      le_min (by norm_num) (by linarith)
    have hraten : (0 : ℝ) ≤ (s.vibration * 0.5 + s.load / 100 * 0.1) *
        (1 / m.wear_resistance) :=
      mul_nonneg (by nlinarith) (by positivity)
    have hincn : (0 : ℝ) ≤ (s.vibration * 0.5 + s.load / 100 * 0.1) *
        (1 / m.wear_resistance) * 0.001 * min 2.0 (1.0 + m.age / 10) :=
      mul_nonneg (mul_nonneg hraten (by norm_num)) hafn
    have hrpmvar : (0 : ℝ) ≤ |s.rpm - m.base_rpm| / m.base_rpm :=
      div_nonneg (abs_nonneg _) hrpm.le
    have hthermal : (0 : ℝ) ≤ max 0 ((s.temperature - 65) / 20) := le_max_left _ _
    unfold update_degradation HiddenInv
    dsimp only
    refine ⟨le_min (by norm_num) (by linarith), min_one_le_one,
      le_min (by norm_num) (by nlinarith), min_one_le_one,
      le_max_left _ _, max_le (by norm_num) ?_⟩
    split
    · nlinarith
    · nlinarith
  · intro m u hp hi hu0 hu1
    obtain ⟨hage, hwr, hrpm, hq1, hq2⟩ := hp
    obtain ⟨hb1, hb2, hm1, hm2, hl1, hl2⟩ := hi
    have heff0 : (0 : ℝ) ≤ m.maintenance_quality * (0.8 + 0.2 * u) := by nlinarith
    have heff1 : m.maintenance_quality * (0.8 + 0.2 * u) ≤ 1 := by nlinarith
    have hf1 : (0 : ℝ) ≤ 0.2 + 0.5 * (1 - m.maintenance_quality * (0.8 + 0.2 * u)) := by
      linarith
    have hf2 : 0.2 + 0.5 * (1 - m.maintenance_quality * (0.8 + 0.2 * u)) ≤ 1 := by
      linarith
    have hg1 : (0 : ℝ) ≤ 0.3 + 0.5 * (1 - m.maintenance_quality * (0.8 + 0.2 * u)) := by
      linarith
    have hg2 : 0.3 + 0.5 * (1 - m.maintenance_quality * (0.8 + 0.2 * u)) ≤ 1 := by
      linarith
    have hlub : (0.1 : ℝ) ≤ m.lubrication_quality +
        0.6 * (m.maintenance_quality * (0.8 + 0.2 * u)) := by linarith
    unfold apply_maintenance HiddenInv
    dsimp only
    exact ⟨mul_nonneg hb1 hf1, mul_le_one hb2 hf1 hf2,
      mul_nonneg hm1 hg1, mul_le_one hm2 hg1 hg2,
      le_min (by norm_num) hlub, min_one_le_one⟩

/-- Witness for C3 at concrete creation draws, a concrete machine state with
a clamped sensor reading, and a concrete workmanship draw. -/
theorem C3_hidden_state_bounds_witness :
    HiddenInv (mkMachine 1 zeroInit) ∧
    HiddenInv (update_degradation sampleMachine sampleSensors 10) ∧
    HiddenInv (apply_maintenance sampleMachine 1) :=
  ⟨(C3_hidden_state_bounds.1 1 zeroInit
      (by norm_num [InitDrawsValid, zeroInit])).1,
   C3_hidden_state_bounds.2.1 sampleMachine sampleSensors 10
     (by norm_num [MachineParams, sampleMachine])
     (by norm_num [HiddenInv, sampleMachine])
     (by norm_num [SensorClamped, sampleSensors]),
   C3_hidden_state_bounds.2.2.2.2.1 sampleMachine 1
     (by norm_num [MachineParams, sampleMachine])
     (by norm_num [HiddenInv, sampleMachine]) (by norm_num) (by norm_num)⟩

/-- The seasonal ambient term is 365-periodic in its day argument. -/
theorem seasonal_temp_effect_periodic (d : ℕ) :
    seasonal_temp_effect (d + 365) = seasonal_temp_effect d := by
  unfold seasonal_temp_effect
  rw [Nat.add_mod_right]

/-- C7 counterexample: at cycle 2, day-in-cycle 91 of a 180-day cycle the
absolute day is `(2 - 1) * 180 + 91 = 271`, and the ambient term the code
computes from the day-in-cycle, `3 sin(2 pi 91 / 365)` (positive), differs
from the claim's `3 sin(2 pi 271 / 365)` (negative): the seasonal ambient
term does not follow the absolute day. -/
theorem C7_counterexample :
    seasonal_temp_effect 91 ≠ seasonal_temp_effect ((2 - 1) * 180 + 91) := by
  have h91 : ((91 % 365 : ℕ) : ℝ) = 91 := by norm_num
  have h271 : ((((2 - 1) * 180 + 91) % 365 : ℕ) : ℝ) = 271 := by norm_num
  unfold seasonal_temp_effect
  rw [h91, h271]
  have hs1 : 0 < Real.sin (2 * Real.pi * 91 / 365) := by
    apply Real.sin_pos_of_pos_of_lt_pi
    · positivity
    · nlinarith [Real.pi_pos]
  have hs2 : Real.sin (2 * Real.pi * 271 / 365) < 0 := by
    have hshift : Real.sin (2 * Real.pi * 271 / 365) =
        Real.sin (2 * Real.pi * 271 / 365 - 2 * Real.pi) :=
      (Real.sin_sub_two_pi _).symm
    rw [hshift]
    apply Real.sin_neg_of_neg_of_neg_pi_lt
    · nlinarith [Real.pi_pos]
    · nlinarith [Real.pi_pos]
  intro h
  nlinarith [hs1, hs2]

/-- C7 (amended): the seasonal ambient term equals
`3 sin(2 pi (day_in_cycle mod 365) / 365)` computed from the day-within-cycle
(the argument the driver passes to `calculate_sensor_readings`), not from the
absolute day that drives the load model: sensor synthesis is 365-periodic in
the day-in-cycle argument and therefore identical across cycles for a fixed
day-within-cycle. -/
theorem C7_seasonal_term_day_in_cycle :
    (∀ (m : Machine) (d : ℕ) (load : ℝ) (dr : DayDraws),
      calculate_sensor_readings m (d + 365) load dr =
        calculate_sensor_readings m d load dr) ∧
    (∀ d : ℕ, seasonal_temp_effect d = seasonal_temp_effect (d % 365)) := by
  constructor
  · intro m d load dr
    simp only [calculate_sensor_readings, seasonal_temp_effect_periodic]
  · intro d
    unfold seasonal_temp_effect
    rw [Nat.mod_mod_of_dvd d dvd_rfl]

/-- C8 counterexample: a run configured with zero machines is not rejected —
the source contains no validation path at all — and instead completes
normally, emitting the empty dataset. -/
theorem C8_counterexample : simRun zeroOracle 0 10 180 = [] :=
  List.length_eq_zero.mp (by simpa using simRun_length zeroOracle 0 10 180)

/-- C8 (amended): the program performs no configuration validation: with a
zero machine count, cycle count or days-per-cycle, every loop range is empty
and the run silently produces an empty dataset (`M * C * D = 0` records)
rather than rejecting the configuration before simulation starts. -/
theorem C8_no_config_validation (o : Oracle) (M C D : ℕ)
    (h : M = 0 ∨ C = 0 ∨ D = 0) : simRun o M C D = [] := by
  apply List.length_eq_zero.mp
  rw [simRun_length]
  rcases h with h | h | h <;> simp [h]

/-- Witness for C8 (amended) at a zero cycle count. -/
theorem C8_no_config_validation_witness : simRun zeroOracle 10 0 180 = [] :=
  C8_no_config_validation zeroOracle 10 0 180 (Or.inr (Or.inl rfl))

end MaintenanceSim
